/-
Verification development for the rwanda_cares_backend matching service.

We give a shallow embedding of the matching, recommendation and project
controllers (`src/controllers/aiController.js`, the project controller)
together with the spec-modelled matcher of the missing `aiService`
module, and prove the stated properties of the spec against it.
Machine numbers of the JavaScript source are modelled as rationals
(`ℚ`) and integers; fallible paths return `Except AppError`.
-/
import Mathlib

namespace RwandaCares

/-- User roles, from the auth checks in the controllers. -/
inductive Role where
  | VOLUNTEER
  | NGO
  | GOVERNMENT
  | ADMIN
deriving DecidableEq, Repr

/-- Project status enum (spec section 3: ACTIVE | CLOSED | CANCELLED). -/
inductive ProjectStatus where
  | ACTIVE
  | CLOSED
  | CANCELLED
deriving DecidableEq, Repr, BEq

/-- Volunteer profile status; the controllers filter on AVAILABLE. -/
inductive VolunteerStatus where
  | AVAILABLE
  | UNAVAILABLE
deriving DecidableEq, Repr, BEq

/-- Errors thrown as `new AppError(message, statusCode)` in the controllers. -/
structure AppError where
  message : String
  statusCode : Nat
deriving DecidableEq, Repr

/-- The five factor sub-scores of a match (`match.factors` in the source). -/
structure MatchFactors where
  skills : ℚ
  location : ℚ
  interests : ℚ
  availability : ℚ
  experience : ℚ
deriving DecidableEq, Repr

/-- Modelled from the spec: the Scoring Engine aggregate of the missing
`aiService` module is the sum of the five factor sub-scores
("aggregate score = Σ factor_i for all factors"). -/
def aggregateScore (f : MatchFactors) : ℚ :=
  f.skills + f.location + f.interests + f.availability + f.experience

/-- Modelled from the spec: per-factor weights, "each conventionally bounded
to [0, weight_i] where weights sum to 100". -/
structure FactorWeights where
  skills : ℚ
  location : ℚ
  interests : ℚ
  availability : ℚ
  experience : ℚ
deriving DecidableEq, Repr

/-- Weights are non-negative and sum to 100 (spec section 3). -/
def WellFormedWeights (w : FactorWeights) : Prop :=
  0 ≤ w.skills ∧ 0 ≤ w.location ∧ 0 ≤ w.interests ∧
  0 ≤ w.availability ∧ 0 ≤ w.experience ∧
  w.skills + w.location + w.interests + w.availability + w.experience = 100

/-- Each factor lies in [0, weight_i] for its weight (spec section 3). -/
def WellFormedFactors (w : FactorWeights) (f : MatchFactors) : Prop :=
  0 ≤ f.skills ∧ f.skills ≤ w.skills ∧
  0 ≤ f.location ∧ f.location ≤ w.location ∧
  0 ≤ f.interests ∧ f.interests ≤ w.interests ∧
  0 ≤ f.availability ∧ f.availability ≤ w.availability ∧
  0 ≤ f.experience ∧ f.experience ≤ w.experience

/-- `AIController.generateVolunteerRecommendationReason`: pushes a phrase per
exceeded threshold into `reasons` (skills, then location, then experience,
then availability), joins with ", ", and falls back to a generic phrase. -/
def generateVolunteerRecommendationReason (factors : MatchFactors) : String :=
  let reasons : List String := []
  let reasons := if factors.skills > 15 then reasons ++ ["Has required skills"] else reasons
  let reasons := if factors.location > 20 then reasons ++ ["Located nearby"] else reasons
  let reasons := if factors.experience > 8 then reasons ++ ["Experienced volunteer"] else reasons
  let reasons := if factors.availability > 12 then reasons ++ ["Available for commitment"] else reasons
  if reasons.length > 0 then String.intercalate ", " reasons else "Well-matched volunteer"

/-- The explainer as the spec words it, for comparison with the source: same
thresholds, but phrases concatenated in the order skills, location,
availability, experience (the spec claims the factor order "skills, location,
interests, availability, experience"; it states no interests threshold). -/
def explainSpecOrdered (factors : MatchFactors) : String :=
  let reasons : List String := []
  let reasons := if factors.skills > 15 then reasons ++ ["Has required skills"] else reasons
  let reasons := if factors.location > 20 then reasons ++ ["Located nearby"] else reasons
  let reasons := if factors.availability > 12 then reasons ++ ["Available for commitment"] else reasons
  let reasons := if factors.experience > 8 then reasons ++ ["Experienced volunteer"] else reasons
  if reasons.length > 0 then String.intercalate ", " reasons else "Well-matched volunteer"

/-- JavaScript `Math.round`: round to the nearest integer, halves up. -/
def jsRound (q : ℚ) : ℤ := ⌊q + 1/2⌋

/-- `Math.round(x * 100) / 100`: rounding to two decimal places, applied by
both handlers to the aggregate score and to every factor sub-score. -/
def round2 (q : ℚ) : ℚ := (jsRound (q * 100) : ℚ) / 100

/-- Rounding to one decimal place, as the spec asserts for the aggregate
score (`Math.round(x * 10) / 10`; not what the handlers do). -/
def round1 (q : ℚ) : ℚ := (jsRound (q * 10) : ℚ) / 10

/-- Snapshot of a candidate project, with the fields the matcher reads. -/
structure SProject where
  id : Nat
  status : ProjectStatus
  createdAt : Int
deriving DecidableEq, Repr

/-- A scored project match (project snapshot plus factor breakdown). -/
structure MatchResult where
  project : SProject
  factors : MatchFactors
deriving DecidableEq, Repr

/-- Aggregate score of a match: the sum of its factors. -/
def MatchResult.score (m : MatchResult) : ℚ := aggregateScore m.factors

/-- Comparator of the matcher ordering: higher aggregate score first, ties
broken by more recent (larger) creation time. -/
def matchLE (a b : MatchResult) : Bool :=
  decide (b.score < a.score) ||
    (decide (a.score = b.score) && decide (b.project.createdAt ≤ a.project.createdAt))

/-- Modelled from the spec: `aiService.findMatches` (the matcher body of the
missing `aiService` module): candidate projects filtered to ACTIVE status,
the Scoring Engine applied to each, sorted descending by aggregate score
with a tie-break by most-recent creation time, truncated to `limit`. -/
def findMatchesForVolunteer (scoreFn : SProject → MatchFactors)
    (candidates : List SProject) (limit : Nat) : List MatchResult :=
  ((((candidates.filter (fun p => decide (p.status = ProjectStatus.ACTIVE))).map
      (fun p => MatchResult.mk p (scoreFn p))).mergeSort matchLE).take limit)

/-- Snapshot of a candidate volunteer profile. -/
structure SVolunteer where
  userId : Nat
  status : VolunteerStatus
  createdAt : Int
deriving DecidableEq, Repr

/-- A scored volunteer recommendation. -/
structure VRec where
  volunteer : SVolunteer
  factors : MatchFactors
deriving DecidableEq, Repr

/-- Aggregate score of a recommendation: the sum of its factors. -/
def VRec.score (r : VRec) : ℚ := aggregateScore r.factors

/-- Comparator for the volunteer-side matcher, symmetric to `matchLE`. -/
def recLE (a b : VRec) : Bool :=
  decide (b.score < a.score) ||
    (decide (a.score = b.score) && decide (b.volunteer.createdAt ≤ a.volunteer.createdAt))

/-- Modelled from the spec: `recommendVolunteersForProject`, the symmetric
matcher over candidate volunteers filtered to an "available" status. -/
def recommendVolunteersForProject (scoreFn : SVolunteer → MatchFactors)
    (candidates : List SVolunteer) (limit : Nat) : List VRec :=
  ((((candidates.filter (fun v => decide (v.status = VolunteerStatus.AVAILABLE))).map
      (fun v => VRec.mk v (scoreFn v))).mergeSort recLE).take limit)

/-- Modelled from the spec: the matcher "Fails with `ValidationError` when
`limit` is non-positive" (spec section 4.2 / 7); mapped to HTTP 400. -/
def validationError : AppError :=
  { message := "ValidationError: limit must be positive", statusCode := 400 }

/-- Modelled from the spec: `aiService.findMatches(volunteerId, limit)` as a
fallible service call, rejecting a non-positive limit. -/
def findMatchesSvc (scoreFn : SProject → MatchFactors) (candidates : List SProject)
    (limit : Int) : Except AppError (List MatchResult) :=
  if limit ≤ 0 then Except.error validationError
  else Except.ok (findMatchesForVolunteer scoreFn candidates limit.toNat)

/-- Modelled from the spec: `aiService.recommendVolunteers(projectId, limit)`
as a fallible service call, rejecting a non-positive limit. -/
def recommendVolunteersSvc (scoreFn : SVolunteer → MatchFactors)
    (candidates : List SVolunteer) (limit : Int) : Except AppError (List VRec) :=
  if limit ≤ 0 then Except.error validationError
  else Except.ok (recommendVolunteersForProject scoreFn candidates limit.toNat)

/-- `parseInt(req.query.limit) || 10`: an absent or unparsable query
parameter (NaN) and a parsed 0 are falsy in JavaScript, so both are
replaced by the default 10; any other parsed integer is kept. -/
def effectiveLimit (limitQuery : Option Int) : Int :=
  match limitQuery with
  | none => 10
  | some n => if n = 0 then 10 else n

/-- Volunteer profile record; `getMatches` only tests its existence. -/
structure VolunteerProfile where
  userId : Nat
deriving DecidableEq, Repr

/-- One entry of `processedMatches` in `getMatches`: snapshot reference,
score and factors rounded to two decimals, and a reason string. -/
structure ProcessedMatch where
  projectId : Nat
  matchScore : ℚ
  matchFactors : MatchFactors
  recommendationReason : String
deriving DecidableEq, Repr

/-- The per-match output mapping of `getMatches`: `Math.round(x*100)/100`
on the score and on each factor; the reason from the raw match. -/
def processMatch (reasonFn : MatchResult → String) (m : MatchResult) : ProcessedMatch :=
  { projectId := m.project.id
    matchScore := round2 m.score
    matchFactors :=
      { skills := round2 m.factors.skills
        location := round2 m.factors.location
        interests := round2 m.factors.interests
        availability := round2 m.factors.availability
        experience := round2 m.factors.experience }
    recommendationReason := reasonFn m }

/-- One entry of `processedRecommendations` in `recommendVolunteers`. -/
structure ProcessedRec where
  volunteerId : Nat
  matchScore : ℚ
  matchFactors : MatchFactors
  recommendationReason : String
deriving DecidableEq, Repr

/-- The per-recommendation output mapping of `recommendVolunteers`: rounding
as in `processMatch`, reason from `generateVolunteerRecommendationReason`
applied to the raw (unrounded) factors. -/
def processRec (r : VRec) : ProcessedRec :=
  { volunteerId := r.volunteer.userId
    matchScore := round2 r.score
    matchFactors :=
      { skills := round2 r.factors.skills
        location := round2 r.factors.location
        interests := round2 r.factors.interests
        availability := round2 r.factors.availability
        experience := round2 r.factors.experience }
    recommendationReason := generateVolunteerRecommendationReason r.factors }

/-- `AIController.getMatches`: role check, limit defaulting, profile
existence check (404 when absent), then the service call and the output
mapping. The service body itself is the spec-modelled `findMatchesSvc`. -/
def getMatchesHandler (scoreFn : SProject → MatchFactors)
    (reasonFn : MatchResult → String) (role : Role) (limitQuery : Option Int)
    (profile : Option VolunteerProfile) (candidates : List SProject) :
    Except AppError (List ProcessedMatch) :=
  if role ≠ Role.VOLUNTEER then
    Except.error { message := "Only volunteers can access matches", statusCode := 403 }
  else
    let limit := effectiveLimit limitQuery
    match profile with
    | none =>
      Except.error
        { message := "Volunteer profile not found. Please complete your profile first."
          statusCode := 404 }
    | some _ =>
      match findMatchesSvc scoreFn candidates limit with
      | Except.error e => Except.error e
      | Except.ok ms => Except.ok (ms.map (processMatch reasonFn))

/-- Project record looked up by `recommendVolunteers` for its ownership check. -/
structure ProjectAnchor where
  id : Nat
  creatorId : Nat
  title : String
deriving DecidableEq, Repr

/-- `AIController.recommendVolunteers`: organization role check, limit
defaulting, project lookup (404 when absent), ownership check, then the
service call and the output mapping. -/
def recommendVolunteersHandler (scoreFn : SVolunteer → MatchFactors) (role : Role)
    (userId : Nat) (limitQuery : Option Int) (project : Option ProjectAnchor)
    (candidates : List SVolunteer) : Except AppError (List ProcessedRec) :=
  if ¬(role = Role.NGO ∨ role = Role.GOVERNMENT ∨ role = Role.ADMIN) then
    Except.error
      { message := "Only organizations can access volunteer recommendations"
        statusCode := 403 }
  else
    let limit := effectiveLimit limitQuery
    match project with
    | none => Except.error { message := "Project not found", statusCode := 404 }
    | some p =>
      if p.creatorId ≠ userId ∧ role ≠ Role.ADMIN then
        Except.error
          { message := "Access denied. You can only get recommendations for your own projects."
            statusCode := 403 }
      else
        match recommendVolunteersSvc scoreFn candidates limit with
        | Except.error e => Except.error e
        | Except.ok recs => Except.ok (recs.map processRec)

/-- Project fields read by `calculateImpactPrediction`; `estimatedHours` is
nullable in the schema, and required skills and applications are the
included relation lists whose lengths the code reads. -/
structure ImpactInput where
  volunteersNeeded : Int
  estimatedHours : Option Int
  requiredSkills : List Nat
  applications : List Nat
  category : String
deriving DecidableEq, Repr

/-- Categories "that typically have higher impact" in the source. -/
def highImpactCategories : List String :=
  ["education", "healthcare", "environment", "poverty"]

/-- `applicationRate` of `calculateImpactPrediction`: applications divided by
volunteers needed, 0 when volunteers needed is not positive. -/
def applicationRate (p : ImpactInput) : ℚ :=
  if p.volunteersNeeded > 0 then
    (p.applications.length : ℚ) / (p.volunteersNeeded : ℚ)
  else 0

/-- The mutable `impactScore` of `calculateImpactPrediction` before the final
clamp: base 50 plus the conditional increments, in source order. A null
`estimatedHours` fails the `> 40` comparison in JavaScript, which `getD 0`
reproduces. -/
def rawImpactScore (p : ImpactInput) : ℚ :=
  let s : ℚ := 50
  let s := if p.volunteersNeeded > 10 then s + 15 else s
  let s := if p.estimatedHours.getD 0 > 40 then s + 10 else s
  let s := if p.requiredSkills.length > 3 then s + 5 else s
  let s :=
    if applicationRate p > 8/10 then s + 10
    else if applicationRate p > 5/10 then s + 5
    else s
  if highImpactCategories.contains p.category.toLower then s + 10 else s

/-- Result of `calculateImpactPrediction` (score and prediction label). -/
structure ImpactPrediction where
  impactScore : ℚ
  prediction : String
deriving DecidableEq, Repr

/-- `AIController.calculateImpactPrediction`: the returned `impactScore` is
`Math.min(100, Math.max(0, impactScore))`, while the `prediction` label is
computed from the unclamped score. -/
def calculateImpactPrediction (p : ImpactInput) : ImpactPrediction :=
  { impactScore := min 100 (max 0 (rawImpactScore p))
    prediction :=
      if rawImpactScore p > 75 then "HIGH"
      else if rawImpactScore p > 50 then "MEDIUM"
      else "LOW" }

/-- Application status enum of the application workflow. -/
inductive ApplicationStatus where
  | PENDING
  | ACCEPTED
  | REJECTED
deriving DecidableEq, Repr, BEq

/-- An application row, with its project foreign key and status. -/
structure Application where
  id : Nat
  volunteerId : Nat
  projectId : Nat
  status : ApplicationStatus
deriving DecidableEq, Repr

/-- A project row as touched by `withdrawApplication` (the
`volunteersApplied` counter it decrements). -/
structure ProjectRow where
  id : Nat
  creatorId : Nat
  title : String
  volunteersApplied : Int
deriving DecidableEq, Repr

/-- The relational store visible to `withdrawApplication`. -/
structure Store where
  applications : List Application
  projects : List ProjectRow
deriving DecidableEq, Repr

/-- `ProjectController.withdrawApplication` as a state transition: role
check, lookup (404 when absent), ownership check, refusal when the
application is ACCEPTED (400), else delete the application row and
decrement the volunteersApplied counter of its project. The creator
notification that follows is a logged stub and does not affect the store. -/
def withdrawApplication (db : Store) (role : Role) (userId : Nat)
    (applicationId : Nat) : Except AppError (Store × String) :=
  if role ≠ Role.VOLUNTEER then
    Except.error { message := "Only volunteers can withdraw applications", statusCode := 403 }
  else
    match db.applications.find? (fun a => a.id == applicationId) with
    | none => Except.error { message := "Application not found", statusCode := 404 }
    | some app =>
      if app.volunteerId ≠ userId then
        Except.error { message := "Access denied", statusCode := 403 }
      else if app.status = ApplicationStatus.ACCEPTED then
        Except.error
          { message := "Cannot withdraw an accepted application. Please contact the organization."
            statusCode := 400 }
      else
        let afterDelete := db.applications.filter (fun a => ¬(a.id == applicationId))
        let afterDecrement := db.projects.map (fun pr =>
          if pr.id == app.projectId then
            { pr with volunteersApplied := pr.volunteersApplied - 1 }
          else pr)
        Except.ok
          ({ applications := afterDelete, projects := afterDecrement },
            "Application withdrawn successfully")

/-- Project snapshot passed to `notifyRelevantVolunteers`. -/
structure ProjectInfo where
  id : Nat
  title : String
deriving DecidableEq, Repr

/-- The payload of one `sendNotification` call. -/
structure Notification where
  userId : Nat
  type : String
  title : String
  message : String
  projectId : Nat
  matchScore : Int
deriving DecidableEq, Repr

/-- The NEW_PROJECT_MATCH notification built for one recommended volunteer
(`matchScore: Math.round(match.score)`). -/
def mkMatchNotification (p : ProjectInfo) (r : VRec) : Notification :=
  { userId := r.volunteer.userId
    type := "NEW_PROJECT_MATCH"
    title := "New Project Match!"
    message := "A new project \"" ++ p.title ++ "\" matches your skills and interests!"
    projectId := p.id
    matchScore := jsRound r.score }

/-- Outcome of the notification step: what was sent and what, if anything,
was written to the error log by the catch block. -/
structure NotifyLog where
  sent : List Notification
  loggedError : Option String
deriving DecidableEq, Repr

/-- The `for (const match of topMatches) await sendNotification(...)` loop:
sends sequentially, stopping at the first thrown error. -/
def sendAll (send : Notification → Except String Unit) :
    List Notification → Except String Unit
  | [] => Except.ok ()
  | n :: rest =>
    match send n with
    | Except.error e => Except.error e
    | Except.ok _ => sendAll send rest

/-- The `try` body of `notifyRelevantVolunteers`: recommend up to 20
volunteers for the project, take the top 5 matches, send each a
notification. Either the recommender call or a send may throw. -/
def notifyRelevantVolunteersBody (recommend : Nat → Nat → Except String (List VRec))
    (send : Notification → Except String Unit) (p : ProjectInfo) :
    Except String (List Notification) :=
  match recommend p.id 20 with
  | Except.error e => Except.error e
  | Except.ok potentialVolunteers =>
    match sendAll send ((potentialVolunteers.take 5).map (mkMatchNotification p)) with
    | Except.error e => Except.error e
    | Except.ok _ => Except.ok ((potentialVolunteers.take 5).map (mkMatchNotification p))

/-- `ProjectController.notifyRelevantVolunteers`: the whole body is wrapped
in try/catch; an error is written to the console log and swallowed
("Don't throw error as this is not critical"), so the call always returns
normally. -/
def notifyRelevantVolunteers (recommend : Nat → Nat → Except String (List VRec))
    (send : Notification → Except String Unit) (p : ProjectInfo) :
    Except String NotifyLog :=
  match notifyRelevantVolunteersBody recommend send p with
  | Except.ok ns => Except.ok { sent := ns, loggedError := none }
  | Except.error e =>
    Except.ok { sent := [], loggedError := some ("Error notifying volunteers: " ++ e) }

/-- `ProjectController.createProject`, reduced to the steps around the
notification call: persist the project (a step that may fail for its own
reasons), await `notifyRelevantVolunteers`, respond 201 with the created
project. An exception escaping the notification step would propagate to
this handler and fail the request. -/
def createProjectHandler (createInDb : ProjectInfo → Except String ProjectInfo)
    (recommend : Nat → Nat → Except String (List VRec))
    (send : Notification → Except String Unit) (input : ProjectInfo) :
    Except String (Nat × ProjectInfo) :=
  match createInDb input with
  | Except.error e => Except.error e
  | Except.ok project =>
    match notifyRelevantVolunteers recommend send project with
    | Except.error e => Except.error e
    | Except.ok _ => Except.ok (201, project)

/-- C1 counterexample: with factors (skills 0, location 0, interests 0,
availability 13, experience 9) the source explainer emits the experience
phrase before the availability phrase, while the order claimed by the spec
(skills, location, interests, availability, experience) would emit the
availability phrase first; the two disagree. -/
theorem c1_counterexample :
    generateVolunteerRecommendationReason ⟨0, 0, 0, 13, 9⟩ =
        "Experienced volunteer, Available for commitment" ∧
    explainSpecOrdered ⟨0, 0, 0, 13, 9⟩ =
        "Available for commitment, Experienced volunteer" ∧
    generateVolunteerRecommendationReason ⟨0, 0, 0, 13, 9⟩ ≠
      explainSpecOrdered ⟨0, 0, 0, 13, 9⟩ := by
  refine ⟨?_, ?_, ?_⟩ <;> decide

/-- C1 (amended): the explainer is deterministic, applies the fixed
thresholds skills > 15, location > 20, experience > 8, availability > 12,
concatenates the triggered phrases with ", " in the fixed factor order
skills, location, experience, availability (no interests phrase exists),
and returns the default phrase when no threshold is exceeded. -/
theorem c1_explainer_fixed_order (f : MatchFactors) :
    generateVolunteerRecommendationReason f =
      (if ((if f.skills > 15 then ["Has required skills"] else []) ++
           (if f.location > 20 then ["Located nearby"] else []) ++
           (if f.experience > 8 then ["Experienced volunteer"] else []) ++
           (if f.availability > 12 then ["Available for commitment"] else [])).isEmpty then
        "Well-matched volunteer"
      else
        String.intercalate ", "
          ((if f.skills > 15 then ["Has required skills"] else []) ++
           (if f.location > 20 then ["Located nearby"] else []) ++
           (if f.experience > 8 then ["Experienced volunteer"] else []) ++
           (if f.availability > 12 then ["Available for commitment"] else []))) := by
  unfold generateVolunteerRecommendationReason
  split_ifs <;> simp_all

/-- C5: for well-formed weights and factors, the aggregate score is the sum
of the five factors, no factor is negative, and the aggregate lies in
[0, 100]. -/
theorem c5_aggregate_bounds (w : FactorWeights) (f : MatchFactors)
    (hw : WellFormedWeights w) (hf : WellFormedFactors w f) :
    aggregateScore f =
      f.skills + f.location + f.interests + f.availability + f.experience ∧
    (0 ≤ f.skills ∧ 0 ≤ f.location ∧ 0 ≤ f.interests ∧
      0 ≤ f.availability ∧ 0 ≤ f.experience) ∧
    0 ≤ aggregateScore f ∧ aggregateScore f ≤ 100 := by
  obtain ⟨hw1, hw2, hw3, hw4, hw5, hsum⟩ := hw
  obtain ⟨h1, h2, h3, h4, h5, h6, h7, h8, h9, h10⟩ := hf
  refine ⟨rfl, ⟨h1, h3, h5, h7, h9⟩, ?_, ?_⟩ <;> unfold aggregateScore <;> linarith

/-- Witness for C5 at concrete weights 20/25/15/20/20 and factors
10/20/5/0/15. -/
theorem c5_aggregate_bounds_witness :
    WellFormedWeights ⟨20, 25, 15, 20, 20⟩ ∧
    WellFormedFactors ⟨20, 25, 15, 20, 20⟩ ⟨10, 20, 5, 0, 15⟩ ∧
    0 ≤ aggregateScore ⟨10, 20, 5, 0, 15⟩ ∧
    aggregateScore ⟨10, 20, 5, 0, 15⟩ ≤ 100 := by
  have hw : WellFormedWeights ⟨20, 25, 15, 20, 20⟩ := by
    unfold WellFormedWeights; norm_num
  have hf : WellFormedFactors ⟨20, 25, 15, 20, 20⟩ ⟨10, 20, 5, 0, 15⟩ := by
    unfold WellFormedFactors; norm_num
  have h := c5_aggregate_bounds _ _ hw hf
  exact ⟨hw, hf, h.2.2.1, h.2.2.2⟩

/-- C9: the returned impact score is clamped to [0, 100], and the prediction
label is HIGH when the unclamped score exceeds 75, MEDIUM when it exceeds
50 but not 75, and LOW otherwise. -/
theorem c9_impact_clamp_and_label (p : ImpactInput) :
    0 ≤ (calculateImpactPrediction p).impactScore ∧
    (calculateImpactPrediction p).impactScore ≤ 100 ∧
    (calculateImpactPrediction p).prediction =
      (if rawImpactScore p > 75 then "HIGH"
       else if rawImpactScore p > 50 then "MEDIUM"
       else "LOW") := by
  refine ⟨?_, ?_, rfl⟩
  · exact le_min (by norm_num) (le_max_left 0 _)
  · exact min_le_left _ _

/-- C3 counterexample: a match whose raw aggregate score is 12.34 is output
as 12.34 (two decimal places survive), which is not an integer multiple of
one tenth, so the output aggregate score is not rounded to one decimal
place as the spec claims. -/
theorem c3_counterexample :
    (processMatch (fun _ => "")
        ⟨⟨1, ProjectStatus.ACTIVE, 0⟩, ⟨1234/100, 0, 0, 0, 0⟩⟩).matchScore = 1234/100 ∧
    ¬ ∃ k : ℤ,
        (processMatch (fun _ => "")
          ⟨⟨1, ProjectStatus.ACTIVE, 0⟩, ⟨1234/100, 0, 0, 0, 0⟩⟩).matchScore = (k : ℚ) / 10 := by
  have hs : (processMatch (fun _ => "")
      ⟨⟨1, ProjectStatus.ACTIVE, 0⟩, ⟨1234/100, 0, 0, 0, 0⟩⟩).matchScore = 1234/100 := by
    norm_num [processMatch, MatchResult.score, aggregateScore, round2, jsRound]
  refine ⟨hs, ?_⟩
  rintro ⟨k, hk⟩
  rw [hs] at hk
  have hz : (1234 : ℤ) * 10 = k * 100 := by
    field_simp at hk
    exact_mod_cast hk
  omega

/-- C3 (amended): both handlers round the aggregate score and every factor
sub-score to two decimal places (`Math.round(x*100)/100`); every such
rounded value is an integer multiple of one hundredth. -/
theorem c3_two_decimal_rounding (reasonFn : MatchResult → String)
    (m : MatchResult) (r : VRec) :
    ((processMatch reasonFn m).matchScore = round2 m.score ∧
      (processMatch reasonFn m).matchFactors =
        ⟨round2 m.factors.skills, round2 m.factors.location, round2 m.factors.interests,
          round2 m.factors.availability, round2 m.factors.experience⟩) ∧
    ((processRec r).matchScore = round2 r.score ∧
      (processRec r).matchFactors =
        ⟨round2 r.factors.skills, round2 r.factors.location, round2 r.factors.interests,
          round2 r.factors.availability, round2 r.factors.experience⟩) ∧
    (∀ q : ℚ, ∃ k : ℤ, round2 q = (k : ℚ) / 100) :=
  ⟨⟨rfl, rfl⟩, ⟨rfl, rfl⟩, fun q => ⟨jsRound (q * 100), rfl⟩⟩

/-- C10: withdrawing an application whose status is ACCEPTED fails with the
400 error from the source, and no store update is returned (no delete and
no decrement happens). -/
theorem c10_withdraw_accepted_rejected (db : Store) (uid aid : Nat)
    (app : Application)
    (hfind : db.applications.find? (fun a => a.id == aid) = some app)
    (hown : app.volunteerId = uid)
    (hacc : app.status = ApplicationStatus.ACCEPTED) :
    withdrawApplication db Role.VOLUNTEER uid aid =
      Except.error
        ⟨"Cannot withdraw an accepted application. Please contact the organization.", 400⟩ ∧
    ∀ r, withdrawApplication db Role.VOLUNTEER uid aid ≠ Except.ok r := by
  have h : withdrawApplication db Role.VOLUNTEER uid aid =
      Except.error
        ⟨"Cannot withdraw an accepted application. Please contact the organization.", 400⟩ := by
    unfold withdrawApplication
    rw [hfind]
    simp [hown, hacc]
  exact ⟨h, fun r hr => by rw [h] at hr; exact Except.noConfusion hr⟩

/-- The matcher comparator is transitive. -/
theorem matchLE_trans :
    ∀ a b c : MatchResult, matchLE a b → matchLE b c → matchLE a c := by
  intro a b c hab hbc
  simp only [matchLE, Bool.or_eq_true, Bool.and_eq_true, decide_eq_true_eq] at *
  rcases hab with h | ⟨h1, h2⟩ <;> rcases hbc with h' | ⟨h1', h2'⟩
  · exact Or.inl (lt_trans h' h)
  · exact Or.inl (by rw [← h1']; exact h)
  · exact Or.inl (by rw [h1]; exact h')
  · exact Or.inr ⟨h1.trans h1', le_trans h2' h2⟩

/-- The matcher comparator is total. -/
theorem matchLE_total : ∀ a b : MatchResult, matchLE a b || matchLE b a := by
  intro a b
  simp only [matchLE, Bool.or_eq_true, Bool.and_eq_true, decide_eq_true_eq]
  rcases lt_trichotomy a.score b.score with h | h | h
  · exact Or.inr (Or.inl h)
  · rcases le_total a.project.createdAt b.project.createdAt with ht | ht
    · exact Or.inr (Or.inr ⟨h.symm, ht⟩)
    · exact Or.inl (Or.inr ⟨h, ht⟩)
  · exact Or.inl (Or.inl h)

/-- C4: the (spec-modelled) matcher returns only ACTIVE projects, sorted by
descending aggregate score with ties broken by descending creation time, at
most `limit` of them, and all qualifying candidates when fewer than `limit`
qualify. -/
theorem c4_matcher (scoreFn : SProject → MatchFactors)
    (candidates : List SProject) (limit : Nat) :
    (∀ m ∈ findMatchesForVolunteer scoreFn candidates limit,
        m.project.status = ProjectStatus.ACTIVE) ∧
    (findMatchesForVolunteer scoreFn candidates limit).Pairwise
      (fun a b => b.score < a.score ∨
        (a.score = b.score ∧ b.project.createdAt ≤ a.project.createdAt)) ∧
    (findMatchesForVolunteer scoreFn candidates limit).length ≤ limit ∧
    ((candidates.filter (fun p => decide (p.status = ProjectStatus.ACTIVE))).length < limit →
      (findMatchesForVolunteer scoreFn candidates limit).length =
        (candidates.filter (fun p => decide (p.status = ProjectStatus.ACTIVE))).length ∧
      ∀ p ∈ candidates, p.status = ProjectStatus.ACTIVE →
        ∃ m ∈ findMatchesForVolunteer scoreFn candidates limit,
          m.project = p ∧ m.factors = scoreFn p) := by
  refine ⟨?_, ?_, ?_, ?_⟩
  · intro m hm
    have hm' := List.mem_of_mem_take hm
    rw [List.mem_mergeSort, List.mem_map] at hm'
    obtain ⟨p, hp, rfl⟩ := hm'
    have := List.of_mem_filter hp
    simpa using this
  · have hs := List.sorted_mergeSort matchLE_trans matchLE_total
      ((candidates.filter (fun p => decide (p.status = ProjectStatus.ACTIVE))).map
        (fun p => MatchResult.mk p (scoreFn p)))
    have hp := hs.sublist (List.take_sublist limit _)
    exact hp.imp (by
      intro a b hab
      simpa only [matchLE, Bool.or_eq_true, Bool.and_eq_true, decide_eq_true_eq] using hab)
  · exact List.length_take_le _ _
  · intro hlt
    have hlen : (((candidates.filter
        (fun p => decide (p.status = ProjectStatus.ACTIVE))).map
          (fun p => MatchResult.mk p (scoreFn p))).mergeSort matchLE).length =
        (candidates.filter (fun p => decide (p.status = ProjectStatus.ACTIVE))).length := by
      rw [List.length_mergeSort, List.length_map]
    have htake : (((candidates.filter
        (fun p => decide (p.status = ProjectStatus.ACTIVE))).map
          (fun p => MatchResult.mk p (scoreFn p))).mergeSort matchLE).take limit =
        ((candidates.filter (fun p => decide (p.status = ProjectStatus.ACTIVE))).map
          (fun p => MatchResult.mk p (scoreFn p))).mergeSort matchLE :=
      List.take_of_length_le (by omega)
    constructor
    · unfold findMatchesForVolunteer
      rw [htake, hlen]
    · intro p hp hactive
      refine ⟨MatchResult.mk p (scoreFn p), ?_, rfl, rfl⟩
      unfold findMatchesForVolunteer
      rw [htake, List.mem_mergeSort]
      exact List.mem_map_of_mem _ (List.mem_filter.mpr ⟨hp, by simpa using hactive⟩)

/-- Witness for C4 at a concrete score function, one ACTIVE candidate, and
limit 3: the single qualifying project is returned. -/
theorem c4_matcher_witness :
    ∃ m ∈ findMatchesForVolunteer (fun _ => ⟨10, 0, 0, 0, 0⟩)
        [⟨1, ProjectStatus.ACTIVE, 0⟩] 3,
      m.project = ⟨1, ProjectStatus.ACTIVE, 0⟩ := by
  obtain ⟨-, -, -, h⟩ :=
    c4_matcher (fun _ => ⟨10, 0, 0, 0, 0⟩) [⟨1, ProjectStatus.ACTIVE, 0⟩] 3
  obtain ⟨-, hall⟩ := h (by decide)
  obtain ⟨m, hm, hmp, -⟩ :=
    hall ⟨1, ProjectStatus.ACTIVE, 0⟩ (by decide) (by decide)
  exact ⟨m, hm, hmp⟩

/-- Witness for C10: a one-application store with an ACCEPTED application. -/
theorem c10_withdraw_accepted_rejected_witness :
    withdrawApplication
        ⟨[⟨1, 2, 3, ApplicationStatus.ACCEPTED⟩], [⟨3, 9, "Tree planting", 4⟩]⟩
        Role.VOLUNTEER 2 1 =
      Except.error
        ⟨"Cannot withdraw an accepted application. Please contact the organization.", 400⟩ :=
  (c10_withdraw_accepted_rejected
      ⟨[⟨1, 2, 3, ApplicationStatus.ACCEPTED⟩], [⟨3, 9, "Tree planting", 4⟩]⟩
      2 1 ⟨1, 2, 3, ApplicationStatus.ACCEPTED⟩ (by decide) rfl rfl).1

/-- C2 counterexample: with `limit = 0` in the query, `getMatches` does not
fail with a ValidationError; the falsy parsed value is replaced by the
default 10 and the handler returns results (here the empty list). -/
theorem c2_counterexample :
    getMatchesHandler (fun _ => ⟨0, 0, 0, 0, 0⟩) (fun _ => "") Role.VOLUNTEER
        (some 0) (some ⟨1⟩) [] = Except.ok [] ∧
    ∀ e, getMatchesHandler (fun _ => ⟨0, 0, 0, 0, 0⟩) (fun _ => "") Role.VOLUNTEER
        (some 0) (some ⟨1⟩) [] ≠ Except.error e := by
  have h : getMatchesHandler (fun _ => ⟨0, 0, 0, 0, 0⟩) (fun _ => "") Role.VOLUNTEER
      (some 0) (some ⟨1⟩) [] = Except.ok [] := by
    simp [getMatchesHandler, effectiveLimit, findMatchesSvc, findMatchesForVolunteer]
  exact ⟨h, fun e he => by rw [h] at he; exact Except.noConfusion he⟩

/-- C2 (amended): a strictly negative limit reaches the (spec-modelled)
service and fails with a ValidationError, but `limit = 0` is falsy in the
handlers' `parseInt(...) || 10` and is replaced by the default 10, so the
request succeeds instead of failing. -/
theorem c2_limit_defaulting (scoreFn : SProject → MatchFactors)
    (reasonFn : MatchResult → String) (prof : VolunteerProfile)
    (cands : List SProject) (scoreV : SVolunteer → MatchFactors) (uid : Nat)
    (anchor : ProjectAnchor) (candsV : List SVolunteer) (n : Int) (hn : n < 0) :
    getMatchesHandler scoreFn reasonFn Role.VOLUNTEER (some n) (some prof) cands =
      Except.error validationError ∧
    recommendVolunteersHandler scoreV Role.ADMIN uid (some n) (some anchor) candsV =
      Except.error validationError ∧
    getMatchesHandler scoreFn reasonFn Role.VOLUNTEER (some 0) (some prof) cands =
      Except.ok ((findMatchesForVolunteer scoreFn cands 10).map (processMatch reasonFn)) := by
  have hne : n ≠ 0 := by omega
  have hle : n ≤ 0 := by omega
  refine ⟨?_, ?_, ?_⟩
  · simp [getMatchesHandler, effectiveLimit, findMatchesSvc, hne, hle]
  · simp [recommendVolunteersHandler, effectiveLimit, recommendVolunteersSvc, hne, hle]
  · simp [getMatchesHandler, effectiveLimit, findMatchesSvc]

/-- Witness for C2 (amended) at `limit = -3`. -/
theorem c2_limit_defaulting_witness :
    getMatchesHandler (fun _ => ⟨0, 0, 0, 0, 0⟩) (fun _ => "") Role.VOLUNTEER
        (some (-3)) (some ⟨1⟩) [] = Except.error validationError :=
  (c2_limit_defaulting (fun _ => ⟨0, 0, 0, 0, 0⟩) (fun _ => "") ⟨1⟩ []
      (fun _ => ⟨0, 0, 0, 0, 0⟩) 7 ⟨1, 7, "Clinic"⟩ [] (-3) (by norm_num)).1

/-- C6: when the anchor entity is absent (no volunteer profile for
`getMatches`, no project for `recommendVolunteers`) the authorized request
fails with the 404 error and no result is produced. -/
theorem c6_not_found (scoreFn : SProject → MatchFactors)
    (reasonFn : MatchResult → String) (lq : Option Int) (cands : List SProject)
    (scoreV : SVolunteer → MatchFactors) (role : Role) (uid : Nat)
    (lq2 : Option Int) (candsV : List SVolunteer)
    (hrole : role = Role.NGO ∨ role = Role.GOVERNMENT ∨ role = Role.ADMIN) :
    getMatchesHandler scoreFn reasonFn Role.VOLUNTEER lq none cands =
      Except.error
        ⟨"Volunteer profile not found. Please complete your profile first.", 404⟩ ∧
    recommendVolunteersHandler scoreV role uid lq2 none candsV =
      Except.error ⟨"Project not found", 404⟩ := by
  constructor
  · simp [getMatchesHandler]
  · unfold recommendVolunteersHandler
    rcases hrole with h | h | h <;> subst h <;> simp

/-- Witness for C6 with an NGO caller. -/
theorem c6_not_found_witness :
    getMatchesHandler (fun _ => ⟨0, 0, 0, 0, 0⟩) (fun _ => "") Role.VOLUNTEER
        none none [] =
      Except.error
        ⟨"Volunteer profile not found. Please complete your profile first.", 404⟩ ∧
    recommendVolunteersHandler (fun _ => ⟨0, 0, 0, 0, 0⟩) Role.NGO 7 none none [] =
      Except.error ⟨"Project not found", 404⟩ :=
  c6_not_found (fun _ => ⟨0, 0, 0, 0, 0⟩) (fun _ => "") none []
    (fun _ => ⟨0, 0, 0, 0, 0⟩) Role.NGO 7 none [] (Or.inl rfl)

/-- C7: the notification step always returns normally (its try/catch logs
and swallows any error), so the project-creation response is identical for
any recommender and sender behaviour, including failing ones. -/
theorem c7_notification_isolation
    (createInDb : ProjectInfo → Except String ProjectInfo) (input : ProjectInfo)
    (r₁ r₂ : Nat → Nat → Except String (List VRec))
    (s₁ s₂ : Notification → Except String Unit) :
    createProjectHandler createInDb r₁ s₁ input =
      createProjectHandler createInDb r₂ s₂ input ∧
    ∀ recommend send p, ∃ log,
      notifyRelevantVolunteers recommend send p = Except.ok log := by
  have hok : ∀ (recommend : Nat → Nat → Except String (List VRec))
      (send : Notification → Except String Unit) (p : ProjectInfo),
      ∃ log, notifyRelevantVolunteers recommend send p = Except.ok log := by
    intro recommend send p
    unfold notifyRelevantVolunteers
    rcases notifyRelevantVolunteersBody recommend send p with e | ns
    · exact ⟨_, rfl⟩
    · exact ⟨_, rfl⟩
  refine ⟨?_, hok⟩
  unfold createProjectHandler
  rcases hc : createInDb input with e | proj
  · simp [hc]
  · obtain ⟨l1, h1⟩ := hok r₁ s₁ proj
    obtain ⟨l2, h2⟩ := hok r₂ s₂ proj
    simp [hc, h1, h2]

/-- For a sender that always succeeds, `sendAll` succeeds on every list. -/
theorem sendAll_ok (send : Notification → Except String Unit)
    (hsend : ∀ n, send n = Except.ok ()) (l : List Notification) :
    sendAll send l = Except.ok () := by
  induction l with
  | nil => rfl
  | cons x xs ih => simp [sendAll, hsend, ih]

/-- C8: on project creation the recommender is invoked with candidate pool
limit 20, and exactly the first 5 of its returned (score-ordered)
recommendations are notified — at most 5 notifications, fewer when the
pool is smaller. -/
theorem c8_notify_top5 (recommend : Nat → Nat → Except String (List VRec))
    (send : Notification → Except String Unit) (p : ProjectInfo)
    (recs : List VRec) (hrec : recommend p.id 20 = Except.ok recs)
    (hsend : ∀ n, send n = Except.ok ()) :
    notifyRelevantVolunteers recommend send p =
      Except.ok ⟨(recs.take 5).map (mkMatchNotification p), none⟩ ∧
    ((recs.take 5).map (mkMatchNotification p)).length = min 5 recs.length := by
  have hbody : notifyRelevantVolunteersBody recommend send p =
      Except.ok ((recs.take 5).map (mkMatchNotification p)) := by
    simp [notifyRelevantVolunteersBody, hrec, sendAll_ok send hsend]
  constructor
  · unfold notifyRelevantVolunteers
    rw [hbody]
  · simp

/-- Witness for C8: a single recommended volunteer is notified. -/
theorem c8_notify_top5_witness :
    notifyRelevantVolunteers
        (fun _ _ => Except.ok [⟨⟨4, VolunteerStatus.AVAILABLE, 0⟩, ⟨20, 0, 0, 0, 0⟩⟩])
        (fun _ => Except.ok ()) ⟨2, "Clinic"⟩ =
      Except.ok
        ⟨([(⟨⟨4, VolunteerStatus.AVAILABLE, 0⟩, ⟨20, 0, 0, 0, 0⟩⟩ : VRec)].take 5).map
            (mkMatchNotification ⟨2, "Clinic"⟩), none⟩ :=
  (c8_notify_top5
      (fun _ _ => Except.ok [⟨⟨4, VolunteerStatus.AVAILABLE, 0⟩, ⟨20, 0, 0, 0, 0⟩⟩])
      (fun _ => Except.ok ()) ⟨2, "Clinic"⟩
      [⟨⟨4, VolunteerStatus.AVAILABLE, 0⟩, ⟨20, 0, 0, 0, 0⟩⟩] rfl (fun _ => rfl)).1

end RwandaCares
